import Mathlib

/-!
Shallow embedding of the thumbnail disk-cache subsystem (src/thumbnail.c).

Modelling conventions:
* `size_t` values are `Nat`; where the code performs unsigned subtraction that
  may wrap (the offset computation in `thumbnail_params`) the wrap modulo
  `2 ^ 64` and the reinterpretation as `ssize_t` are modelled explicitly.
* The `float` field `scale` is modelled as an exact rational (`ℚ`); the
  float-to-`size_t` conversion of a non-negative value truncates toward zero,
  modelled by `Int.floor` followed by `Int.toNat`.
* The filesystem and environment are an explicit state (`FsState`): an
  association list from absolute paths to files, the two environment
  variables, plus sets of paths on which `mkdir`, `fopen("wb")` or the
  subsequent writes fail (modelling filesystem errors such as EACCES/ENOSPC;
  the code never checks the result of `fprintf`/`fwrite`, so a path in
  `writeFail` leaves a partial — here: malformed — file while `fopen`
  still succeeded).
* A cache file whose header scans completely under the format
  `"%2s\n%zu %zu\n255\n"` followed by the `#`-comment with the raw parameter
  record is represented structurally (`FileData.thumb magic w h params
  payload`); any file on which that `fscanf` fails before assigning a field
  (including non-thumbnail files such as the source images themselves) is
  `FileData.malformed`.
* `memcmp` over two `struct thumbnail_params` records is modelled as
  decidable equality of the fields (the records compared are both produced
  by the same deterministic calculator, so padding is identical).
* `st_ctime` values are `Int`; `difftime(a, b) > 0` is `a - b > 0`.
-/

/-- PATH_MAX from linux/limits.h. -/
def PATH_MAX : Nat := 4096

/-- Modelled from the spec: the ARGB packing macro of pixmap.h (not under
src/) — a 32-bit packed pixel holding one byte each for alpha, red, green,
blue. -/
def ARGB (a r g b : Nat) : Nat := (a <<< 24) ||| (r <<< 16) ||| (g <<< 8) ||| b

/-- Modelled from the spec: `struct pixmap` of pixmap.h (not under src/) —
width, height and a row-major buffer of 32-bit packed ARGB pixels.  A freed
buffer is modelled as the empty list. -/
structure Pixmap where
  width : Nat
  height : Nat
  data : List Nat
deriving DecidableEq

/-- `struct thumbnail_params` (thumbnail.h / thumbnail.c). -/
structure ThumbnailParams where
  thumb_width : Nat
  thumb_height : Nat
  offset_x : Int
  offset_y : Int
  fill : Bool
  antialias : Bool
  scale : ℚ
deriving DecidableEq

/-- Modelled from the spec: the slice of `struct image` used here — the first
frame's pixmap and the alpha-presence flag. -/
structure Image where
  frames0 : Pixmap
  alpha : Bool
deriving DecidableEq

/-- Content of a file in the modelled filesystem: either a file whose PPM
header and embedded parameter record scan completely, or any other byte
stream (on which the header `fscanf` fails without assigning a field). -/
inductive FileData where
  | thumb (magic : String) (w h : Nat) (params : ThumbnailParams)
      (payload : List Nat)
  | malformed
deriving DecidableEq

/-- A file of the modelled filesystem: its content and its `st_ctime`. -/
structure FsFile where
  content : FileData
  ctime : Int
deriving DecidableEq

/-- The environment and filesystem state the code runs against. -/
structure FsState where
  /-- `getenv("XDG_CACHE_HOME")` -/
  xdg_cache_home : Option String
  /-- `getenv("HOME")` -/
  home : Option String
  /-- existing files, keyed by absolute path (first match wins) -/
  files : List (String × FsFile)
  /-- directories on which `mkdir` fails with an error other than EEXIST -/
  mkdirFail : List String
  /-- paths on which `fopen(path, "wb")` fails -/
  openFail : List String
  /-- paths on which writes after a successful open fail (never detected by
  the code, which ignores `fprintf`/`fwrite` results); such a file ends up
  partial, i.e. malformed -/
  writeFail : List String
  /-- current time, used as `st_ctime` of any file written now -/
  now : Int
deriving DecidableEq

/-- Unsigned 64-bit subtraction `a - b` as performed on two `size_t`
operands. -/
def size_sub (a b : Nat) : Nat :=
  (a % 2 ^ 64 + (2 ^ 64 - b % 2 ^ 64)) % 2 ^ 64

/-- Reinterpretation of a `size_t` value as `ssize_t` (two's complement). -/
def ssize_of (u : Nat) : Int :=
  if u % 2 ^ 64 < 2 ^ 63 then (u % 2 ^ 64 : Int) else (u % 2 ^ 64 : Int) - 2 ^ 64

/-- The proper prefixes of `path` ending just before each `'/'` at index ≥ 1:
exactly the arguments `make_directories` passes to `mkdir` (the scan starts
at `path + 1`, so a leading slash is skipped). -/
def mkdir_list_aux : List Char → List Char → List String
  | _, [] => []
  | acc, c :: rest =>
    if c = '/' then ⟨acc.reverse⟩ :: mkdir_list_aux (c :: acc) rest
    else mkdir_list_aux (c :: acc) rest

/-- See `mkdir_list_aux`. -/
def mkdir_list (s : String) : List String :=
  match s.data with
  | [] => []
  | c :: rest => mkdir_list_aux [c] rest

/-- `make_directories` (thumbnail.c:30): `mkdir -p`-like; succeeds iff the
path is non-empty and no intermediate `mkdir` fails with an error other than
EEXIST. -/
def make_directories (st : FsState) (path : String) : Bool :=
  if path = "" then false
  else (mkdir_list path).all (fun d => !(st.mkdirFail.contains d))

/-- The memoized `cache_dir` of `get_thumb_path` (thumbnail.c:55):
`$XDG_CACHE_HOME/swayimg`, else `$HOME/.swayimg`, else failure. -/
def cache_dir (st : FsState) : Option String :=
  match st.xdg_cache_home with
  | some c => some (c ++ "/swayimg")
  | none =>
    match st.home with
    | some h => some (h ++ "/.swayimg")
    | none => none

/-- `get_thumb_path` (thumbnail.c:55): the cache path is the cache root with
the source path appended verbatim; `snprintf` succeeds iff the result fits in
PATH_MAX. -/
def get_thumb_path (st : FsState) (source : String) : Option String :=
  match cache_dir st with
  | none => none
  | some d =>
    let p := d ++ source
    if p.length < PATH_MAX then some p else none

/-- `thumbnail_params` (thumbnail.c:75), with exact rational arithmetic in
place of `float` and explicit unsigned wrap in the offset computation. -/
def thumbnail_params (image : Image) (size : Nat) (fill antialias : Bool) :
    ThumbnailParams :=
  let full := image.frames0
  let scale_width : ℚ := 1 / ((full.width : ℚ) / (size : ℚ))
  let scale_height : ℚ := 1 / ((full.height : ℚ) / (size : ℚ))
  let scale : ℚ :=
    if fill then max scale_width scale_height else min scale_width scale_height
  let thumb_width : Nat := (⌊scale * (full.width : ℚ)⌋).toNat
  let thumb_height : Nat := (⌊scale * (full.height : ℚ)⌋).toNat
  if fill then
    { thumb_width := size
      thumb_height := size
      offset_x := ssize_of (size_sub (size / 2) (thumb_width / 2))
      offset_y := ssize_of (size_sub (size / 2) (thumb_height / 2))
      fill := fill
      antialias := antialias
      scale := scale }
  else
    { thumb_width := thumb_width
      thumb_height := thumb_height
      offset_x := 0
      offset_y := 0
      fill := fill
      antialias := antialias
      scale := scale }

/-- The three RGB bytes `thumbnail_save` writes for one packed pixel
(thumbnail.c:135). -/
def pixel_rgb_bytes (px : Nat) : List Nat :=
  [(px >>> (8 * 2)) &&& 0xff, (px >>> (8 * 1)) &&& 0xff, (px >>> (8 * 0)) &&& 0xff]

/-- The pixel payload `thumbnail_save` writes: 3 bytes per pixel for the
first `width * height` entries of the buffer. -/
def save_payload (thumb : Pixmap) : List Nat :=
  ((thumb.data.take (thumb.width * thumb.height)).map pixel_rgb_bytes).flatten

/-- `thumbnail_save` (thumbnail.c:109).  Returns the C result and the
filesystem after the call.  Note the code checks only path resolution,
directory creation and `fopen`; the results of `fprintf`/`fwrite`/`fclose`
are ignored, so on a path in `writeFail` the (partial, malformed) file is
written and the function still returns true. -/
def thumbnail_save (st : FsState) (thumb : Pixmap) (source : String)
    (params : ThumbnailParams) : Bool × FsState :=
  match get_thumb_path st source with
  | none => (false, st)
  | some path =>
    if !make_directories st path then (false, st)
    else if st.openFail.contains path then (false, st)
    else
      let content :=
        if st.writeFail.contains path then FileData.malformed
        else FileData.thumb "P6" thumb.width thumb.height params
          (save_payload thumb)
      (true, { st with files := (path, ⟨content, st.now⟩) :: st.files })

/-- The pixel-reading loop of `thumbnail_load` (thumbnail.c:197): reads `n`
3-byte records, packing each as a fully opaque ARGB pixel; fails if the
payload runs out. -/
def read_pixels : List Nat → Nat → Option (List Nat)
  | _, 0 => some []
  | c0 :: c1 :: c2 :: rest, n + 1 =>
    (read_pixels rest n).map (fun px => ARGB 0xff c0 c1 c2 :: px)
  | _, _ + 1 => none

/-- Result of `thumbnail_load`: the C return value, the caller's pixmap as
left by the call, and the number of open file handles and live pixel buffers
still held when the call returns (resource accounting for the cleanup
paths). -/
structure LoadResult where
  ok : Bool
  pm : Pixmap
  open_handles : Nat
  live_buffers : Nat
deriving DecidableEq

/-- `thumbnail_load` (thumbnail.c:151).  Mirrors the control flow of the C:
path resolution / `stat` / staleness check before `fopen`; after a
successful `fscanf` of the header the caller's `thumb->width` and
`thumb->height` are already overwritten; every failure path runs
`fclose` (and `pixmap_free` where the buffer was allocated), modelled by the
resource counters of the result.  `pixmap_create`/`pixmap_free` are the
out-of-src collaborators: creation fills a fresh zeroed buffer, freeing
empties it. -/
def thumbnail_load (st : FsState) (thumb : Pixmap) (source : String)
    (params : ThumbnailParams) : LoadResult :=
  match get_thumb_path st source with
  | none => ⟨false, thumb, 0, 0⟩
  | some path =>
    match st.files.lookup source with
    | none => ⟨false, thumb, 0, 0⟩  -- stat(source) fails
    | some fsrc =>
      match st.files.lookup path with
      | none => ⟨false, thumb, 0, 0⟩  -- stat(path) fails
      | some fthumb =>
        if fsrc.ctime - fthumb.ctime > 0 then ⟨false, thumb, 0, 0⟩
        else
          -- second get_thumb_path call: same result; fopen(path, "rb")
          -- succeeds (the file exists) and the handle is now open
          match fthumb.content with
          | FileData.malformed => ⟨false, thumb, 0, 0⟩  -- fscanf fails; fclose
          | FileData.thumb magic w h sp payload =>
            -- fscanf assigned thumb->width and thumb->height
            let thumb1 : Pixmap := { thumb with width := w, height := h }
            if magic ≠ "P6" then ⟨false, thumb1, 0, 0⟩  -- goto fail: fclose
            else if sp ≠ params then ⟨false, thumb1, 0, 0⟩  -- goto fail: fclose
            else
              -- pixmap_create allocates the buffer
              let thumb2 : Pixmap := { thumb1 with data := List.replicate (w * h) 0 }
              match read_pixels payload (w * h) with
              | none => ⟨false, { thumb2 with data := [] }, 0, 0⟩
                -- pixmap_free; goto fail: fclose
              | some px => ⟨true, { thumb2 with data := px }, 0, 1⟩
                -- fclose; the loaded buffer is handed to the caller

/-- Modelled from the spec: the resampling algorithms of the
pixel-resampling collaborator (pixmap.h, not under src/). -/
inductive PixmapScale where
  | nearest
  | average
  | bicubic
deriving DecidableEq

/-- Modelled from the spec: `pixmap_scale` of pixmap.c (not under src/)
fills the destination buffer in place; it never changes the destination's
geometry.  Pixel values are out of scope here, so the destination is
returned with its buffer as allocated. -/
def pixmap_scale (_scaler : PixmapScale) (_src : Pixmap) (dst : Pixmap)
    (_offset_x _offset_y : Int) (_scale : ℚ) (_alpha : Bool) : Pixmap :=
  dst

/-- `thumbnail_create` (thumbnail.c:214): selects the resampler, allocates
the destination pixmap at the params' dimensions and invokes the resampling
collaborator.  Also returns the selected algorithm. -/
def thumbnail_create (image : Image) (params : ThumbnailParams) :
    Bool × Pixmap × PixmapScale :=
  let full := image.frames0
  let scaler : PixmapScale :=
    if params.antialias then
      (if params.scale > 1 then PixmapScale.bicubic else PixmapScale.average)
    else PixmapScale.nearest
  let thumb : Pixmap :=
    { width := params.thumb_width
      height := params.thumb_height
      data := List.replicate (params.thumb_width * params.thumb_height) 0 }
  (true, pixmap_scale scaler full thumb params.offset_x params.offset_y
    params.scale image.alpha, scaler)

/-- The conjunction of the checks `thumbnail_save` actually tests before
returning: path resolution, directory creation and `fopen(path, "wb")`.
Write errors after the open are not among them. -/
def save_io_checks (st : FsState) (source : String) : Bool :=
  match get_thumb_path st source with
  | none => false
  | some path => make_directories st path && !(st.openFail.contains path)

/-- Concrete state for C1: the cache file's status-change time (5) is newer
than the source's (0), i.e. time-stamped in the future relative to an
untouched source. -/
def c1_state : FsState :=
  ⟨some "/c", none,
    [("/a.p", ⟨FileData.malformed, 0⟩),
     ("/c/swayimg/a.p",
       ⟨FileData.thumb "P6" 2 1 ⟨2, 1, 0, 0, false, false, 1⟩ [1, 2, 3, 4, 5, 6], 5⟩)],
    [], [], [], 9⟩

/-- Concrete state for C2: a fresh cache entry whose embedded params have
`antialias = false`. -/
def c2_state : FsState :=
  ⟨some "/c", none,
    [("/a.p", ⟨FileData.malformed, 0⟩),
     ("/c/swayimg/a.p",
       ⟨FileData.thumb "P6" 2 1 ⟨2, 1, 0, 0, false, false, 1⟩ [1, 2, 3, 4, 5, 6], 5⟩)],
    [], [], [], 9⟩

/-- Concrete state for C3: only the source file exists; all I/O succeeds. -/
def c3_state : FsState :=
  ⟨some "/c", none, [("/a.p", ⟨FileData.malformed, 0⟩)], [], [], [], 5⟩

/-- Concrete state for C6: a fresh cache entry whose header dimensions are
7×9 and whose embedded params disagree with the caller's. -/
def c6_state : FsState :=
  ⟨some "/c", none,
    [("/a.p", ⟨FileData.malformed, 0⟩),
     ("/c/swayimg/a.p",
       ⟨FileData.thumb "P6" 7 9 ⟨2, 1, 0, 0, false, false, 1⟩ [1, 2, 3], 5⟩)],
    [], [], [], 9⟩

/-- Concrete state for C10: a fresh cache entry whose header dimensions
(3×2) differ from the `thumb_width`/`thumb_height` fields (9, 7) of its own
embedded params. -/
def c10_state : FsState :=
  ⟨some "/c", none,
    [("/a.p", ⟨FileData.malformed, 0⟩),
     ("/c/swayimg/a.p",
       ⟨FileData.thumb "P6" 3 2 ⟨9, 7, 0, 0, false, false, 1⟩
          (List.replicate 18 1), 5⟩)],
    [], [], [], 9⟩

/-! Helper lemmas about the embedding. -/

/-- Unsigned 64-bit subtraction followed by the `ssize_t` reinterpretation
agrees with exact integer subtraction while both operands are far from the
word size. -/
theorem ssize_of_size_sub (a b : Nat) (ha : a < 2 ^ 63) (hb : b < 2 ^ 63) :
    ssize_of (size_sub a b) = (a : Int) - (b : Int) := by
  unfold ssize_of size_sub
  split <;> omega

theorem floor_div_mul_self (s k : Nat) (hk : 0 < k) :
    (⌊((s : ℚ) / (k : ℚ)) * (k : ℚ)⌋).toNat = s := by
  rw [div_mul_cancel₀]
  · rw [Int.floor_natCast, Int.toNat_natCast]
  · exact_mod_cast hk.ne'

theorem floor_toNat_le (x : ℚ) (s : Nat) (h : x ≤ (s : ℚ)) :
    (⌊x⌋).toNat ≤ s := by
  have h1 : ⌊x⌋ ≤ (s : Int) := by
    have := Int.floor_le_floor h
    rwa [Int.floor_natCast] at this
  omega

/-- Reading back exactly `l.length` three-byte records from the payload
written for pixel list `l` succeeds and reconstitutes each pixel fully
opaque. -/
theorem read_pixels_flatten (l : List Nat) :
    read_pixels ((l.map pixel_rgb_bytes).flatten) l.length =
      some (l.map (fun px =>
        ARGB 0xff ((px >>> (8 * 2)) &&& 0xff) ((px >>> (8 * 1)) &&& 0xff)
          ((px >>> (8 * 0)) &&& 0xff))) := by
  induction l with
  | nil => rfl
  | cons px rest ih =>
    simp only [List.map_cons, List.flatten_cons, List.length_cons, pixel_rgb_bytes,
      List.cons_append, List.append_eq, List.nil_append, read_pixels, ih,
      Option.map_some]
    rfl

theorem cache_dir_length_pos (st : FsState) (d : String)
    (h : cache_dir st = some d) : 0 < d.length := by
  unfold cache_dir at h
  cases hx : st.xdg_cache_home with
  | some c =>
    rw [hx] at h
    obtain rfl : c ++ "/swayimg" = d := by injection h
    simp only [String.length_append]
    have : 0 < "/swayimg".length := by decide
    omega
  | none =>
    rw [hx] at h
    cases hh : st.home with
    | some c =>
      rw [hh] at h
      obtain rfl : c ++ "/.swayimg" = d := by injection h
      simp only [String.length_append]
      have : 0 < "/.swayimg".length := by decide
      omega
    | none => rw [hh] at h; exact absurd h (by simp)

theorem get_thumb_path_eq (st : FsState) (source path : String)
    (h : get_thumb_path st source = some path) :
    ∃ d, cache_dir st = some d ∧ path = d ++ source ∧ path.length < PATH_MAX := by
  unfold get_thumb_path at h
  cases hcd : cache_dir st with
  | none => rw [hcd] at h; exact absurd h (by simp)
  | some d =>
    rw [hcd] at h
    simp only [] at h
    split at h
    · exact ⟨d, rfl, by injection h with h'; exact h'.symm, by
        have : d ++ source = path := by injection h
        rw [← this]; assumption⟩
    · exact absurd h (by simp)

/-- The cache path strictly extends the source path, so the two never
coincide. -/
theorem get_thumb_path_ne_source (st : FsState) (source path : String)
    (h : get_thumb_path st source = some path) : path ≠ source := by
  obtain ⟨d, hd, rfl, _⟩ := get_thumb_path_eq st source path h
  intro hcontra
  have h1 : (d ++ source).length = source.length := by rw [hcontra]
  rw [String.length_append] at h1
  have := cache_dir_length_pos st d hd
  omega

/-- Reading back the payload `thumbnail_save` wrote for a well-formed pixmap
succeeds and yields the pixels with alpha forced opaque. -/
theorem read_pixels_save_payload (thumb : Pixmap)
    (hlen : thumb.data.length = thumb.width * thumb.height) :
    read_pixels (save_payload thumb) (thumb.width * thumb.height) =
      some (thumb.data.map (fun px =>
        ARGB 0xff ((px >>> (8 * 2)) &&& 0xff) ((px >>> (8 * 1)) &&& 0xff)
          ((px >>> (8 * 0)) &&& 0xff))) := by
  unfold save_payload
  rw [← hlen, List.take_length]
  exact read_pixels_flatten thumb.data

/-- Under cover semantics the effective scale never exceeds the target size,
so each pre-crop dimension is at most `size * dimension`. -/
theorem fill_scaled_le (s k j : Nat) (hk : 0 < k) (hj : 0 < j) :
    (⌊max ((s : ℚ) / (k : ℚ)) ((s : ℚ) / (j : ℚ)) * (k : ℚ)⌋).toNat ≤ s * k := by
  apply floor_toNat_le
  have hmax : max ((s : ℚ) / (k : ℚ)) ((s : ℚ) / (j : ℚ)) ≤ (s : ℚ) :=
    max_le (div_le_self (by positivity) (by exact_mod_cast hk))
      (div_le_self (by positivity) (by exact_mod_cast hj))
  calc max ((s : ℚ) / (k : ℚ)) ((s : ℚ) / (j : ℚ)) * (k : ℚ)
      ≤ (s : ℚ) * (k : ℚ) := mul_le_mul_of_nonneg_right hmax (by positivity)
    _ = ((s * k : Nat) : ℚ) := by push_cast; ring

/-! Claim theorems. -/

/-- Claim C1: `thumbnail_load` succeeds only if the source file's
status-change time is not strictly newer than the cache file's; and the
reverse direction is not checked — a concrete state whose cache file is
time-stamped in the future (ctime 5) relative to an untouched source
(ctime 0) is still accepted as fresh. -/
theorem c1_staleness :
    (∀ (st : FsState) (thumb : Pixmap) (source : String) (params : ThumbnailParams)
        (path : String) (fsrc fthumb : FsFile),
      get_thumb_path st source = some path →
      st.files.lookup source = some fsrc →
      st.files.lookup path = some fthumb →
      (thumbnail_load st thumb source params).ok = true →
      fsrc.ctime ≤ fthumb.ctime) ∧
    (c1_state.files.lookup "/a.p" = some ⟨FileData.malformed, 0⟩ ∧
      c1_state.files.lookup "/c/swayimg/a.p" =
        some ⟨FileData.thumb "P6" 2 1 ⟨2, 1, 0, 0, false, false, 1⟩ [1, 2, 3, 4, 5, 6], 5⟩ ∧
      (0 : Int) < 5 ∧
      (thumbnail_load c1_state ⟨0, 0, []⟩ "/a.p" ⟨2, 1, 0, 0, false, false, 1⟩).ok = true) := by
  constructor
  · intro st thumb source params path fsrc fthumb hpath hsrc hth hok
    by_contra hc
    have hgt : fsrc.ctime - fthumb.ctime > 0 := by omega
    unfold thumbnail_load at hok
    rw [hpath] at hok
    simp only [hsrc, hth, if_pos hgt] at hok
    exact Bool.false_ne_true hok
  · exact ⟨by decide, by decide, by decide, by decide⟩

/-- Witness for C1: the forward direction applied at the concrete state of
the second conjunct. -/
theorem c1_witness :
    get_thumb_path c1_state "/a.p" = some "/c/swayimg/a.p" ∧
    (thumbnail_load c1_state ⟨0, 0, []⟩ "/a.p" ⟨2, 1, 0, 0, false, false, 1⟩).ok = true ∧
    (0 : Int) ≤ 5 :=
  ⟨by decide, by decide,
    c1_staleness.1 c1_state ⟨0, 0, []⟩ "/a.p" ⟨2, 1, 0, 0, false, false, 1⟩
      "/c/swayimg/a.p" ⟨FileData.malformed, 0⟩
      ⟨FileData.thumb "P6" 2 1 ⟨2, 1, 0, 0, false, false, 1⟩ [1, 2, 3, 4, 5, 6], 5⟩
      (by decide) (by decide) (by decide) (by decide)⟩

/-- Claim C2: whenever the params embedded in the cache file differ (in any
field, the exactly-compared scale included) from the caller-supplied params,
`thumbnail_load` reports a miss, regardless of the rest of the state. -/
theorem c2_params_mismatch (st : FsState) (thumb : Pixmap) (source : String)
    (params : ThumbnailParams) (path magic : String) (w h : Nat)
    (sp : ThumbnailParams) (payload : List Nat) (ct : Int)
    (hpath : get_thumb_path st source = some path)
    (hfile : st.files.lookup path = some ⟨FileData.thumb magic w h sp payload, ct⟩)
    (hne : sp ≠ params) :
    (thumbnail_load st thumb source params).ok = false := by
  unfold thumbnail_load
  rw [hpath]
  cases hsrc : st.files.lookup source with
  | none => rfl
  | some fsrc =>
    simp only [hsrc, hfile]
    split
    · rfl
    · by_cases hm : magic ≠ "P6"
      · simp [hm]
      · simp [hm, hne]

/-- Witness for C2: an untouched source whose cache entry was saved with
`antialias = false` misses when loaded with `antialias = true`. -/
theorem c2_witness :
    get_thumb_path c2_state "/a.p" = some "/c/swayimg/a.p" ∧
    (⟨2, 1, 0, 0, false, false, 1⟩ : ThumbnailParams) ≠
      ⟨2, 1, 0, 0, false, true, 1⟩ ∧
    (thumbnail_load c2_state ⟨0, 0, []⟩ "/a.p" ⟨2, 1, 0, 0, false, true, 1⟩).ok = false :=
  ⟨by decide, by decide,
    c2_params_mismatch c2_state ⟨0, 0, []⟩ "/a.p" ⟨2, 1, 0, 0, false, true, 1⟩
      "/c/swayimg/a.p" "P6" 2 1 ⟨2, 1, 0, 0, false, false, 1⟩ [1, 2, 3, 4, 5, 6] 5
      (by decide) (by decide) (by decide)⟩

/-- Claim C3 (amended): after a `thumbnail_save` that succeeded and whose
writes all completed, a `thumbnail_load` with identical params and an
untouched source succeeds and returns the saved pixel data with every
pixel's alpha byte replaced by fully opaque — equal to the data that was
saved only when every saved pixel was already fully opaque. -/
theorem c3_roundtrip (st : FsState) (thumb thumb0 : Pixmap) (source : String)
    (params : ThumbnailParams) (path : String) (fsrc : FsFile)
    (hpath : get_thumb_path st source = some path)
    (hsrc : st.files.lookup source = some fsrc)
    (hct : fsrc.ctime ≤ st.now)
    (hlen : thumb.data.length = thumb.width * thumb.height)
    (hwr : path ∉ st.writeFail)
    (hsave : (thumbnail_save st thumb source params).1 = true) :
    (thumbnail_load (thumbnail_save st thumb source params).2 thumb0 source params).ok = true ∧
    (thumbnail_load (thumbnail_save st thumb source params).2 thumb0 source params).pm.width =
      thumb.width ∧
    (thumbnail_load (thumbnail_save st thumb source params).2 thumb0 source params).pm.height =
      thumb.height ∧
    (thumbnail_load (thumbnail_save st thumb source params).2 thumb0 source params).pm.data =
      thumb.data.map (fun px =>
        ARGB 0xff ((px >>> (8 * 2)) &&& 0xff) ((px >>> (8 * 1)) &&& 0xff)
          ((px >>> (8 * 0)) &&& 0xff)) := by
  have hnsp : source ≠ path := (get_thumb_path_ne_source st source path hpath).symm
  by_cases hmk : make_directories st path
  case neg =>
    unfold thumbnail_save at hsave
    rw [hpath] at hsave
    simp [hmk] at hsave
  case pos =>
  by_cases hop : path ∈ st.openFail
  case pos =>
    unfold thumbnail_save at hsave
    rw [hpath] at hsave
    simp [hmk, hop] at hsave
  case neg =>
  have hst1 : (thumbnail_save st thumb source params).2 =
      { st with files :=
          (path, ⟨FileData.thumb "P6" thumb.width thumb.height params
            (save_payload thumb), st.now⟩) :: st.files } := by
    unfold thumbnail_save
    rw [hpath]
    simp [hmk, hop, hwr]
  rw [hst1]
  have hpath1 : get_thumb_path
      { st with files :=
          (path, ⟨FileData.thumb "P6" thumb.width thumb.height params
            (save_payload thumb), st.now⟩) :: st.files } source = some path := hpath
  have hbeq : (source == path) = false := beq_eq_false_iff_ne.mpr hnsp
  have hlk1 : List.lookup source
      ((path, (⟨FileData.thumb "P6" thumb.width thumb.height params
        (save_payload thumb), st.now⟩ : FsFile)) :: st.files) = some fsrc := by
    rw [List.lookup_cons]
    simp [hbeq, hsrc]
  have hlk2 : List.lookup path
      ((path, (⟨FileData.thumb "P6" thumb.width thumb.height params
        (save_payload thumb), st.now⟩ : FsFile)) :: st.files) =
      some ⟨FileData.thumb "P6" thumb.width thumb.height params
        (save_payload thumb), st.now⟩ := by
    rw [List.lookup_cons]
    simp
  have hctn : ¬ (fsrc.ctime - st.now > 0) := by omega
  unfold thumbnail_load
  rw [hpath1]
  simp only [hlk1, hlk2, hctn, if_false, ite_not]
  simp only [ne_eq, not_true_eq_false, Bool.false_eq_true, if_false,
    read_pixels_save_payload thumb hlen]
  exact ⟨rfl, rfl, rfl, rfl⟩

/-- Counterexample for C3 as stated: saving a single non-opaque pixel
(0x00010203) and loading it back with identical params and an untouched
source succeeds, but the loaded pixel data (alpha reconstituted as 0xFF)
differs from the pixel data that was saved. -/
theorem c3_counterexample :
    (thumbnail_save c3_state ⟨1, 1, [66051]⟩ "/a.p" ⟨1, 1, 0, 0, false, false, 1⟩).1 = true ∧
    (thumbnail_load
        (thumbnail_save c3_state ⟨1, 1, [66051]⟩ "/a.p" ⟨1, 1, 0, 0, false, false, 1⟩).2
        ⟨0, 0, []⟩ "/a.p" ⟨1, 1, 0, 0, false, false, 1⟩).ok = true ∧
    (thumbnail_load
        (thumbnail_save c3_state ⟨1, 1, [66051]⟩ "/a.p" ⟨1, 1, 0, 0, false, false, 1⟩).2
        ⟨0, 0, []⟩ "/a.p" ⟨1, 1, 0, 0, false, false, 1⟩).pm.data ≠ [66051] := by
  refine ⟨by decide, by decide, by decide⟩

/-- Witness for C3: the amended round-trip at a fully opaque pixel
(0xFF102030), where the loaded data equals the saved data. -/
theorem c3_witness :
    (get_thumb_path c3_state "/a.p" = some "/c/swayimg/a.p" ∧
      c3_state.files.lookup "/a.p" = some ⟨FileData.malformed, 0⟩ ∧
      (0 : Int) ≤ 5 ∧
      ([(4279312432 : Nat)] : List Nat).length = 1 * 1 ∧
      "/c/swayimg/a.p" ∉ c3_state.writeFail ∧
      (thumbnail_save c3_state ⟨1, 1, [4279312432]⟩ "/a.p"
        ⟨1, 1, 0, 0, false, false, 1⟩).1 = true) ∧
    (thumbnail_load
        (thumbnail_save c3_state ⟨1, 1, [4279312432]⟩ "/a.p" ⟨1, 1, 0, 0, false, false, 1⟩).2
        ⟨0, 0, []⟩ "/a.p" ⟨1, 1, 0, 0, false, false, 1⟩).ok = true ∧
    (thumbnail_load
        (thumbnail_save c3_state ⟨1, 1, [4279312432]⟩ "/a.p" ⟨1, 1, 0, 0, false, false, 1⟩).2
        ⟨0, 0, []⟩ "/a.p" ⟨1, 1, 0, 0, false, false, 1⟩).pm.width = 1 ∧
    (thumbnail_load
        (thumbnail_save c3_state ⟨1, 1, [4279312432]⟩ "/a.p" ⟨1, 1, 0, 0, false, false, 1⟩).2
        ⟨0, 0, []⟩ "/a.p" ⟨1, 1, 0, 0, false, false, 1⟩).pm.height = 1 ∧
    (thumbnail_load
        (thumbnail_save c3_state ⟨1, 1, [4279312432]⟩ "/a.p" ⟨1, 1, 0, 0, false, false, 1⟩).2
        ⟨0, 0, []⟩ "/a.p" ⟨1, 1, 0, 0, false, false, 1⟩).pm.data =
      ([(4279312432 : Nat)] : List Nat).map (fun px =>
        ARGB 0xff ((px >>> (8 * 2)) &&& 0xff) ((px >>> (8 * 1)) &&& 0xff)
          ((px >>> (8 * 0)) &&& 0xff)) :=
  ⟨⟨by decide, by decide, by decide, by decide, by decide, by decide⟩,
    c3_roundtrip c3_state ⟨1, 1, [4279312432]⟩ ⟨0, 0, []⟩ "/a.p"
      ⟨1, 1, 0, 0, false, false, 1⟩ "/c/swayimg/a.p" ⟨FileData.malformed, 0⟩
      (by decide) (by decide) (by decide) (by decide) (by decide) (by decide)⟩

/-- Claim C4: for positive source dimensions, under contain semantics
(`fill` unset) the effective scale is `min(size/width, size/height)`, the
canvas is the scaled source dimensions truncated toward zero — at least one
of them equal to `size` and neither exceeding it — and both offsets are
zero.  (Exact rational arithmetic stands in for `float`.) -/
theorem c4_contain (w h size : Nat) (d : List Nat) (b al : Bool)
    (hw : 0 < w) (hh : 0 < h) :
    (thumbnail_params ⟨⟨w, h, d⟩, b⟩ size false al).scale =
      min ((size : ℚ) / (w : ℚ)) ((size : ℚ) / (h : ℚ)) ∧
    (thumbnail_params ⟨⟨w, h, d⟩, b⟩ size false al).thumb_width =
      (⌊min ((size : ℚ) / (w : ℚ)) ((size : ℚ) / (h : ℚ)) * (w : ℚ)⌋).toNat ∧
    (thumbnail_params ⟨⟨w, h, d⟩, b⟩ size false al).thumb_height =
      (⌊min ((size : ℚ) / (w : ℚ)) ((size : ℚ) / (h : ℚ)) * (h : ℚ)⌋).toNat ∧
    ((thumbnail_params ⟨⟨w, h, d⟩, b⟩ size false al).thumb_width = size ∨
      (thumbnail_params ⟨⟨w, h, d⟩, b⟩ size false al).thumb_height = size) ∧
    (thumbnail_params ⟨⟨w, h, d⟩, b⟩ size false al).thumb_width ≤ size ∧
    (thumbnail_params ⟨⟨w, h, d⟩, b⟩ size false al).thumb_height ≤ size ∧
    (thumbnail_params ⟨⟨w, h, d⟩, b⟩ size false al).offset_x = 0 ∧
    (thumbnail_params ⟨⟨w, h, d⟩, b⟩ size false al).offset_y = 0 := by
  have hw0 : ((w : ℚ)) ≠ 0 := by exact_mod_cast hw.ne'
  have hh0 : ((h : ℚ)) ≠ 0 := by exact_mod_cast hh.ne'
  unfold thumbnail_params
  simp only [one_div_div, Bool.false_eq_true, if_false]
  refine ⟨trivial, trivial, trivial, ?_, ?_, ?_, trivial, trivial⟩
  · rcases le_total ((size : ℚ) / (w : ℚ)) ((size : ℚ) / (h : ℚ)) with hab | hab
    · left
      rw [min_eq_left hab]
      exact floor_div_mul_self size w hw
    · right
      rw [min_eq_right hab]
      exact floor_div_mul_self size h hh
  · rcases le_total ((size : ℚ) / (w : ℚ)) ((size : ℚ) / (h : ℚ)) with hab | hab
    · rw [min_eq_left hab, floor_div_mul_self size w hw]
    · rw [min_eq_right hab]
      apply floor_toNat_le
      calc (size : ℚ) / (h : ℚ) * (w : ℚ) ≤ (size : ℚ) / (w : ℚ) * (w : ℚ) := by
            apply mul_le_mul_of_nonneg_right hab (by positivity)
        _ = (size : ℚ) := div_mul_cancel₀ _ hw0
  · rcases le_total ((size : ℚ) / (w : ℚ)) ((size : ℚ) / (h : ℚ)) with hab | hab
    · rw [min_eq_left hab]
      apply floor_toNat_le
      calc (size : ℚ) / (w : ℚ) * (h : ℚ) ≤ (size : ℚ) / (h : ℚ) * (h : ℚ) := by
            apply mul_le_mul_of_nonneg_right hab (by positivity)
        _ = (size : ℚ) := div_mul_cancel₀ _ hh0
    · rw [min_eq_right hab, floor_div_mul_self size h hh]

/-- Witness for C4: the spec's concrete scenario A, source 4000×2000 at
size 256 under contain. -/
theorem c4_witness :
    ((0 : Nat) < 4000 ∧ (0 : Nat) < 2000) ∧
    ((thumbnail_params ⟨⟨4000, 2000, []⟩, false⟩ 256 false false).thumb_width = 256 ∨
      (thumbnail_params ⟨⟨4000, 2000, []⟩, false⟩ 256 false false).thumb_height = 256) :=
  ⟨⟨by norm_num, by norm_num⟩,
    (c4_contain 4000 2000 256 [] false false (by norm_num) (by norm_num)).2.2.2.1⟩

/-- Claim C5: for positive source dimensions (bounded so that all `size_t`
arithmetic stays in range), under cover semantics (`fill` set) the effective
scale is `max(size/width, size/height)`, the canvas is exactly size × size,
and each signed offset equals `size/2 − scaledDimension/2` for the pre-crop
scaled dimension of its axis (negative when the scaled content overflows the
canvas). -/
theorem c5_fill (w h size : Nat) (d : List Nat) (b al : Bool)
    (hw : 0 < w) (hh : 0 < h)
    (hwB : w ≤ 2 ^ 31) (hhB : h ≤ 2 ^ 31) (hsB : size ≤ 2 ^ 31) :
    (thumbnail_params ⟨⟨w, h, d⟩, b⟩ size true al).scale =
      max ((size : ℚ) / (w : ℚ)) ((size : ℚ) / (h : ℚ)) ∧
    (thumbnail_params ⟨⟨w, h, d⟩, b⟩ size true al).thumb_width = size ∧
    (thumbnail_params ⟨⟨w, h, d⟩, b⟩ size true al).thumb_height = size ∧
    (thumbnail_params ⟨⟨w, h, d⟩, b⟩ size true al).offset_x =
      ((size / 2 : Nat) : Int) -
        (((⌊max ((size : ℚ) / (w : ℚ)) ((size : ℚ) / (h : ℚ)) * (w : ℚ)⌋).toNat / 2 : Nat) : Int) ∧
    (thumbnail_params ⟨⟨w, h, d⟩, b⟩ size true al).offset_y =
      ((size / 2 : Nat) : Int) -
        (((⌊max ((size : ℚ) / (w : ℚ)) ((size : ℚ) / (h : ℚ)) * (h : ℚ)⌋).toNat / 2 : Nat) : Int) := by
  have htw := fill_scaled_le size w h hw hh
  have hth := fill_scaled_le size h w hh hw
  rw [max_comm ((size : ℚ) / (h : ℚ)) ((size : ℚ) / (w : ℚ))] at hth
  unfold thumbnail_params
  simp only [one_div_div, if_true]
  refine ⟨trivial, trivial, trivial, ?_, ?_⟩
  · apply ssize_of_size_sub
    · have : 2 ^ 31 / 2 < (2 : Nat) ^ 63 := by norm_num
      omega
    · have : (2 : Nat) ^ 31 * 2 ^ 31 < 2 ^ 63 := by norm_num
      have hb : size * w ≤ 2 ^ 31 * 2 ^ 31 := Nat.mul_le_mul hsB hwB
      omega
  · apply ssize_of_size_sub
    · have : 2 ^ 31 / 2 < (2 : Nat) ^ 63 := by norm_num
      omega
    · have : (2 : Nat) ^ 31 * 2 ^ 31 < 2 ^ 63 := by norm_num
      have hb : size * h ≤ 2 ^ 31 * 2 ^ 31 := Nat.mul_le_mul hsB hhB
      omega

/-- Witness for C5: the spec's concrete scenario B, source 4000×2000 at
size 256 under cover — canvas 256×256, offset_x = 128 − 256 = −128,
offset_y = 0. -/
theorem c5_witness :
    ((0 : Nat) < 4000 ∧ (0 : Nat) < 2000 ∧ 4000 ≤ 2 ^ 31 ∧ 2000 ≤ 2 ^ 31 ∧
      256 ≤ 2 ^ 31) ∧
    (thumbnail_params ⟨⟨4000, 2000, []⟩, false⟩ 256 true false).offset_x =
      ((256 / 2 : Nat) : Int) -
        (((⌊max ((256 : ℚ) / (4000 : ℚ)) ((256 : ℚ) / (2000 : ℚ)) * (4000 : ℚ)⌋).toNat / 2 : Nat) : Int) ∧
    (thumbnail_params ⟨⟨4000, 2000, []⟩, false⟩ 256 true false).offset_x = -128 ∧
    (thumbnail_params ⟨⟨4000, 2000, []⟩, false⟩ 256 true false).offset_y = 0 ∧
    (thumbnail_params ⟨⟨4000, 2000, []⟩, false⟩ 256 true false).thumb_width = 256 ∧
    (thumbnail_params ⟨⟨4000, 2000, []⟩, false⟩ 256 true false).thumb_height = 256 :=
  ⟨by norm_num,
    (c5_fill 4000 2000 256 [] false false (by norm_num) (by norm_num) (by norm_num)
      (by norm_num) (by norm_num)).2.2.2.1,
    by norm_num [thumbnail_params, max_def, size_sub, ssize_of]; decide,
    by norm_num [thumbnail_params, max_def, size_sub, ssize_of]; decide,
    (c5_fill 4000 2000 256 [] false false (by norm_num) (by norm_num) (by norm_num)
      (by norm_num) (by norm_num)).2.1,
    (c5_fill 4000 2000 256 [] false false (by norm_num) (by norm_num) (by norm_num)
      (by norm_num) (by norm_num)).2.2.1⟩

/-- Claim C6 (amended): on every failing `thumbnail_load` path all acquired
resources are released before returning — the file handle is closed and any
allocated pixel buffer is freed, so the caller never receives loaded pixel
data — but the destination pixmap is not left untouched: its width and
height fields may have been overwritten with the cache header's values. -/
theorem c6_failure_cleanup (st : FsState) (thumb : Pixmap) (source : String)
    (params : ThumbnailParams)
    (hfail : (thumbnail_load st thumb source params).ok = false) :
    (thumbnail_load st thumb source params).open_handles = 0 ∧
    (thumbnail_load st thumb source params).live_buffers = 0 ∧
    ((thumbnail_load st thumb source params).pm.data = thumb.data ∨
      (thumbnail_load st thumb source params).pm.data = []) := by
  revert hfail
  unfold thumbnail_load
  repeat' split
  all_goals intro hfail
  all_goals
    first
      | exact ⟨rfl, rfl, Or.inl rfl⟩
      | exact ⟨rfl, rfl, Or.inr rfl⟩
      | exact absurd hfail (by simp)

/-- Counterexample for C6 as stated: a load that fails on a params mismatch
has already overwritten the caller-supplied pixmap's width and height fields
with the header's 7×9, so the destination is not left with
"no modified fields". -/
theorem c6_counterexample :
    (thumbnail_load c6_state ⟨1, 2, []⟩ "/a.p" ⟨2, 1, 0, 0, false, true, 1⟩).ok = false ∧
    (thumbnail_load c6_state ⟨1, 2, []⟩ "/a.p" ⟨2, 1, 0, 0, false, true, 1⟩).pm ≠ ⟨1, 2, []⟩ ∧
    (thumbnail_load c6_state ⟨1, 2, []⟩ "/a.p" ⟨2, 1, 0, 0, false, true, 1⟩).pm.width = 7 ∧
    (thumbnail_load c6_state ⟨1, 2, []⟩ "/a.p" ⟨2, 1, 0, 0, false, true, 1⟩).pm.height = 9 := by
  refine ⟨by decide, by decide, by decide, by decide⟩

/-- Witness for C6: the cleanup theorem applied at the concrete failing
load. -/
theorem c6_witness :
    (thumbnail_load c6_state ⟨1, 2, []⟩ "/a.p" ⟨2, 1, 0, 0, false, true, 1⟩).ok = false ∧
    ((thumbnail_load c6_state ⟨1, 2, []⟩ "/a.p" ⟨2, 1, 0, 0, false, true, 1⟩).open_handles = 0 ∧
      (thumbnail_load c6_state ⟨1, 2, []⟩ "/a.p" ⟨2, 1, 0, 0, false, true, 1⟩).live_buffers = 0 ∧
      ((thumbnail_load c6_state ⟨1, 2, []⟩ "/a.p" ⟨2, 1, 0, 0, false, true, 1⟩).pm.data = [] ∨
        (thumbnail_load c6_state ⟨1, 2, []⟩ "/a.p" ⟨2, 1, 0, 0, false, true, 1⟩).pm.data = [])) :=
  ⟨by decide,
    c6_failure_cleanup c6_state ⟨1, 2, []⟩ "/a.p" ⟨2, 1, 0, 0, false, true, 1⟩ (by decide)⟩

/-- Claim C7 (amended): `thumbnail_save` returns failure exactly when path
resolution, directory creation or file creation fails, and on such failure
the filesystem is unchanged; errors while writing the header, params or
pixel payload are not detected (`fprintf`/`fwrite` results are ignored), so
success does not guarantee that the complete entry was written. -/
theorem c7_save_result (st : FsState) (thumb : Pixmap) (source : String)
    (params : ThumbnailParams) :
    (thumbnail_save st thumb source params).1 = save_io_checks st source ∧
    (save_io_checks st source = false →
      (thumbnail_save st thumb source params).2 = st) := by
  unfold thumbnail_save save_io_checks
  cases hgp : get_thumb_path st source with
  | none => exact ⟨rfl, fun _ => rfl⟩
  | some path =>
    by_cases hmk : make_directories st path <;>
      by_cases hop : path ∈ st.openFail <;>
        simp [hmk, hop]

/-- Counterexample for C7 as stated: on a path whose writes fail (e.g.
ENOSPC after a successful open), `thumbnail_save` still returns success,
although the entry on disk is not the complete entry but a partial
(malformed) file. -/
theorem c7_counterexample :
    (thumbnail_save ⟨some "/c", none, [("/a.p", ⟨FileData.malformed, 0⟩)], [],
        [], ["/c/swayimg/a.p"], 5⟩ ⟨1, 1, [66051]⟩ "/a.p"
        ⟨1, 1, 0, 0, false, false, 1⟩).1 = true ∧
    (thumbnail_save ⟨some "/c", none, [("/a.p", ⟨FileData.malformed, 0⟩)], [],
        [], ["/c/swayimg/a.p"], 5⟩ ⟨1, 1, [66051]⟩ "/a.p"
        ⟨1, 1, 0, 0, false, false, 1⟩).2.files.lookup "/c/swayimg/a.p" =
      some ⟨FileData.malformed, 5⟩ := by
  constructor
  · decide
  · decide

/-- Witness for C7: the characterization applied where `fopen` fails — the
save reports failure and creates nothing. -/
theorem c7_witness :
    save_io_checks ⟨some "/c", none, [], [], ["/c/swayimg/a.p"], [], 0⟩ "/a.p" = false ∧
    (thumbnail_save ⟨some "/c", none, [], [], ["/c/swayimg/a.p"], [], 0⟩ ⟨1, 1, [0]⟩
        "/a.p" ⟨1, 1, 0, 0, false, false, 1⟩).2 =
      ⟨some "/c", none, [], [], ["/c/swayimg/a.p"], [], 0⟩ :=
  ⟨by decide,
    (c7_save_result ⟨some "/c", none, [], [], ["/c/swayimg/a.p"], [], 0⟩ ⟨1, 1, [0]⟩
      "/a.p" ⟨1, 1, 0, 0, false, false, 1⟩).2 (by decide)⟩

/-- Claim C8: with both XDG_CACHE_HOME and HOME unset, every
`thumbnail_save` and every `thumbnail_load` reports failure, and the save
leaves the filesystem untouched (no file is created). -/
theorem c8_env_unset (st : FsState) (thumb : Pixmap) (source : String)
    (params : ThumbnailParams)
    (hx : st.xdg_cache_home = none) (hh : st.home = none) :
    thumbnail_save st thumb source params = (false, st) ∧
    thumbnail_load st thumb source params = ⟨false, thumb, 0, 0⟩ := by
  have hcd : cache_dir st = none := by unfold cache_dir; rw [hx, hh]
  have hgp : get_thumb_path st source = none := by unfold get_thumb_path; rw [hcd]
  constructor
  · unfold thumbnail_save; rw [hgp]
  · unfold thumbnail_load; rw [hgp]

/-- Witness for C8: the theorem applied at a concrete state with both
variables unset. -/
theorem c8_witness :
    (FsState.xdg_cache_home ⟨none, none, [], [], [], [], 0⟩ = none ∧
      FsState.home ⟨none, none, [], [], [], [], 0⟩ = none) ∧
    (thumbnail_save ⟨none, none, [], [], [], [], 0⟩ ⟨1, 1, [7]⟩ "/a.p" ⟨2, 1, 0, 0, false, false, 1⟩ =
        (false, ⟨none, none, [], [], [], [], 0⟩) ∧
      thumbnail_load ⟨none, none, [], [], [], [], 0⟩ ⟨1, 1, [7]⟩ "/a.p" ⟨2, 1, 0, 0, false, false, 1⟩ =
        ⟨false, ⟨1, 1, [7]⟩, 0, 0⟩) :=
  ⟨⟨rfl, rfl⟩, c8_env_unset _ _ _ _ rfl rfl⟩

/-- Claim C9: `thumbnail_create` allocates the destination pixmap at
`thumb_width × thumb_height` and selects nearest-neighbor when antialias is
off, bicubic when antialias is on and the scale is an enlargement
(scale > 1), and averaging when antialias is on and the scale is a
reduction (scale ≤ 1). -/
theorem c9_scaler (image : Image) (params : ThumbnailParams) :
    (thumbnail_create image params).1 = true ∧
    (thumbnail_create image params).2.1.width = params.thumb_width ∧
    (thumbnail_create image params).2.1.height = params.thumb_height ∧
    (params.antialias = false →
      (thumbnail_create image params).2.2 = PixmapScale.nearest) ∧
    (params.antialias = true → 1 < params.scale →
      (thumbnail_create image params).2.2 = PixmapScale.bicubic) ∧
    (params.antialias = true → params.scale ≤ 1 →
      (thumbnail_create image params).2.2 = PixmapScale.average) := by
  unfold thumbnail_create pixmap_scale
  refine ⟨rfl, rfl, rfl, ?_, ?_, ?_⟩
  · intro h; simp [h]
  · intro h h1; simp [h, h1]
  · intro h h1; simp [h, not_lt.mpr h1]

/-- Witness for C9: antialiased enlargement (scale 7/2) selects bicubic. -/
theorem c9_witness :
    ((⟨2, 1, 0, 0, false, true, (7 : ℚ) / 2⟩ : ThumbnailParams).antialias = true ∧
      (1 : ℚ) < (7 : ℚ) / 2) ∧
    (thumbnail_create ⟨⟨4, 2, []⟩, false⟩ ⟨2, 1, 0, 0, false, true, (7 : ℚ) / 2⟩).2.2 =
      PixmapScale.bicubic :=
  ⟨⟨rfl, by norm_num⟩,
    (c9_scaler ⟨⟨4, 2, []⟩, false⟩ ⟨2, 1, 0, 0, false, true, (7 : ℚ) / 2⟩).2.2.2.2.1
      rfl (by norm_num)⟩

/-- Claim C10: a successful `thumbnail_load` returns a pixmap whose
dimensions are the width and height parsed from the cache header; they are
never compared with the `thumb_width`/`thumb_height` fields of the
caller-supplied params, so a cache file whose header dimensions (3×2)
differ from its embedded params (9×7) still loads successfully with the
header's size. -/
theorem c10_header_dims :
    (∀ (st : FsState) (thumb : Pixmap) (source : String) (params : ThumbnailParams)
        (path magic : String) (w h : Nat) (sp : ThumbnailParams)
        (payload : List Nat) (ct : Int),
      get_thumb_path st source = some path →
      st.files.lookup path = some ⟨FileData.thumb magic w h sp payload, ct⟩ →
      (thumbnail_load st thumb source params).ok = true →
      (thumbnail_load st thumb source params).pm.width = w ∧
      (thumbnail_load st thumb source params).pm.height = h) ∧
    ((thumbnail_load c10_state ⟨0, 0, []⟩ "/a.p" ⟨9, 7, 0, 0, false, false, 1⟩).ok = true ∧
      (thumbnail_load c10_state ⟨0, 0, []⟩ "/a.p" ⟨9, 7, 0, 0, false, false, 1⟩).pm.width = 3 ∧
      (thumbnail_load c10_state ⟨0, 0, []⟩ "/a.p" ⟨9, 7, 0, 0, false, false, 1⟩).pm.height = 2 ∧
      (⟨9, 7, 0, 0, false, false, 1⟩ : ThumbnailParams).thumb_width ≠ 3 ∧
      (⟨9, 7, 0, 0, false, false, 1⟩ : ThumbnailParams).thumb_height ≠ 2) := by
  constructor
  · intro st thumb source params path magic w h sp payload ct hpath hfile hok
    unfold thumbnail_load at hok ⊢
    rw [hpath] at hok ⊢
    cases hsrc : st.files.lookup source with
    | none => rw [hsrc] at hok; exact absurd hok (by simp)
    | some fsrc =>
      simp only [hsrc, hfile] at hok ⊢
      split at hok
      · exact absurd hok (by simp)
      · rename_i hct
        rw [if_neg hct]
        by_cases hm : magic ≠ "P6"
        · rw [if_pos hm] at hok; exact absurd hok (by simp)
        · rw [if_neg hm] at hok ⊢
          by_cases hsp : sp ≠ params
          · rw [if_pos hsp] at hok; exact absurd hok (by simp)
          · rw [if_neg hsp] at hok ⊢
            cases hrp : read_pixels payload (w * h) with
            | none => rw [hrp] at hok; exact absurd hok (by simp)
            | some px => exact ⟨rfl, rfl⟩
  · exact ⟨by decide, by decide, by decide, by decide, by decide⟩

/-- Witness for C10: the forward direction applied at the concrete state
whose header dimensions differ from the embedded params. -/
theorem c10_witness :
    get_thumb_path c10_state "/a.p" = some "/c/swayimg/a.p" ∧
    (thumbnail_load c10_state ⟨0, 0, []⟩ "/a.p" ⟨9, 7, 0, 0, false, false, 1⟩).ok = true ∧
    (thumbnail_load c10_state ⟨0, 0, []⟩ "/a.p" ⟨9, 7, 0, 0, false, false, 1⟩).pm.width = 3 ∧
    (thumbnail_load c10_state ⟨0, 0, []⟩ "/a.p" ⟨9, 7, 0, 0, false, false, 1⟩).pm.height = 2 :=
  ⟨by decide, by decide,
    (c10_header_dims.1 c10_state ⟨0, 0, []⟩ "/a.p" ⟨9, 7, 0, 0, false, false, 1⟩
      "/c/swayimg/a.p" "P6" 3 2 ⟨9, 7, 0, 0, false, false, 1⟩ (List.replicate 18 1) 5
      (by decide) (by decide) (by decide)).1,
    (c10_header_dims.1 c10_state ⟨0, 0, []⟩ "/a.p" ⟨9, 7, 0, 0, false, false, 1⟩
      "/c/swayimg/a.p" "P6" 3 2 ⟨9, 7, 0, 0, false, false, 1⟩ (List.replicate 18 1) 5
      (by decide) (by decide) (by decide)).2⟩
